import Mathlib

/-!
Shallow embedding of the schedule-resize drag handlers of this calendar
widget: `TimeResize` (day/time-grid view) and `WeekResize` (month/week-row
view), together with the date-arithmetic helpers they call.

Instants are modelled as integers counting milliseconds.  The base date of a
time-grid view (`relatedView.getDate()`) is the instant of the start of the
containing calendar day.  Pixel coordinates, which the gesture classifier
divides by two, are modelled as rationals.
-/

namespace TuiCalendar

/-- Modelled from the spec: `datetime.millisecondsFrom('minutes', n)` of the
common datetime module (not part of the excerpt) converts a count of minutes
to milliseconds. -/
def millisecondsFromMinutes (n : Int) : Int := n * 60000

/-- Milliseconds in one calendar day. -/
def msPerDay : Int := 86400000

/-- Modelled from the spec: `TZDate#addMilliseconds` shifts an instant by a
number of milliseconds. -/
def addMilliseconds (t ms : Int) : Int := t + ms

/-- Modelled from the spec: `TZDate#addMinutes` shifts an instant by a number
of minutes. -/
def addMinutes (t m : Int) : Int := t + m * 60000

/-- Modelled from the spec: `TZDate#addDate` shifts an instant by a number of
whole days. -/
def addDate (t d : Int) : Int := t + d * msPerDay

/-- Modelled from the spec: `datetime.end(baseDate)` applied to a `baseDate`
that is the start of a calendar day: the containing day ends at 23:59 of that
day ("a day ending at 23:59", "`day + 1` minus one minute"). -/
def datetimeEndOfBase (dayStart : Int) : Int := dayStart + 1439 * 60000

/-- Modelled from the spec: `datetime.end(date)` on an arbitrary instant, as
used by the month variant ("clamp the candidate to end-of-day"): 23:59 of the
calendar day containing the instant. -/
def datetimeEnd (t : Int) : Int := msPerDay * (Int.ediv t msPerDay) + 1439 * 60000

/-- A schedule entity: the `getStarts()` and `getEnds()` timestamps.  The
collection owning it is modelled as a keyed lookup (`controller.schedules.items`). -/
structure Schedule where
  starts : Int
  ends : Int
  deriving DecidableEq, Repr

/-- The two mutable timestamp fields of a schedule. -/
inductive ScheduleField where
  | startF
  | endF
  deriving DecidableEq, Repr

/-- The changes object handed to the `beforeUpdateSchedule` event: at most one
new value per field. -/
structure ScheduleChanges where
  startChange : Option Int
  endChange : Option Int
  deriving DecidableEq, Repr

/-- Modelled from the spec: `common.getScheduleChanges(schedule, propNames,
data)` builds "a changes object containing only the modified field": a
property appears exactly when it is requested in `propNames`, `data` supplies
a value for it, and that value differs from the schedule's current one. -/
def getScheduleChanges (schedule : Schedule) (propNames : List ScheduleField)
    (data : ScheduleField → Option Int) : ScheduleChanges :=
  let pick (f : ScheduleField) (old : Int) : Option Int :=
    if f ∈ propNames then
      match data f with
      | some v => if v = old then none else some v
      | none => none
    else none
  { startChange := pick ScheduleField.startF schedule.starts
    endChange := pick ScheduleField.endF schedule.ends }

/-- The payload fired with `beforeUpdateSchedule`: the original schedule, the
changes object, and the (deprecated) flat `start`/`end` values. -/
structure BeforeUpdateEvent where
  schedule : Schedule
  changes : ScheduleChanges
  start : Int
  ends : Int
  deriving DecidableEq, Repr

/-- `TimeResize.prototype._updateSchedule` (bottom-edge drag) after the
schedule lookup has succeeded: subtract the 30-minute baseline from the
nearest-grid range, add the difference to the schedule's end, clamp to the
end of the base day, clamp the duration up to 30 minutes, clamp strictly
above `baseDate + 1 day` down to `baseDate + 1 day − 1 minute`, then emit. -/
def updateScheduleCore (schedule : Schedule) (nearestRange : Int × Int)
    (baseDate : Int) : BeforeUpdateEvent :=
  let timeDiff := nearestRange.2 - nearestRange.1 - millisecondsFromMinutes 30
  let dateEnd := datetimeEndOfBase baseDate
  let newEnds0 := addMilliseconds schedule.ends timeDiff
  let newEnds1 := if newEnds0 > dateEnd then dateEnd else newEnds0
  let newEnds2 :=
    if newEnds1 - schedule.starts < millisecondsFromMinutes 30 then
      addMinutes schedule.starts 30
    else newEnds1
  let newEnds3 :=
    if newEnds2 > addDate baseDate 1 then addMinutes (addDate baseDate 1) (-1)
    else newEnds2
  { schedule := schedule
    changes := getScheduleChanges schedule [ScheduleField.endF]
      (fun f => match f with
        | ScheduleField.endF => some newEnds3
        | ScheduleField.startF => none)
    start := schedule.starts
    ends := newEnds3 }

/-- `TimeResize.prototype._updateSchedule` with the schedule lookup: returns
the fired `beforeUpdateSchedule` payload, or `none` when no schedule matches
the target model id (the handler returns early and fires nothing). -/
def updateSchedule (items : String → Option Schedule) (targetModelID : String)
    (nearestRange : Int × Int) (baseDate : Int) : Option BeforeUpdateEvent :=
  match items targetModelID with
  | none => none
  | some schedule => some (updateScheduleCore schedule nearestRange baseDate)

/-- `TimeResize.prototype._updateScheduleTop` (top-edge drag) after the
schedule lookup has succeeded: add the baseline-adjusted difference to the
schedule's start, clamp up to the base day's start, clamp the duration up to
30 minutes by moving the start to `end − 30 minutes`, clamp up to the base
day's start once more, then emit. -/
def updateScheduleTopCore (schedule : Schedule) (nearestRange : Int × Int)
    (baseDate : Int) : BeforeUpdateEvent :=
  let timeDiff := nearestRange.2 - nearestRange.1 - millisecondsFromMinutes 30
  let newStarts0 := addMilliseconds schedule.starts timeDiff
  let newStarts1 := if newStarts0 < baseDate then baseDate else newStarts0
  let newStarts2 :=
    if schedule.ends - newStarts1 < millisecondsFromMinutes 30 then
      addMinutes schedule.ends (-30)
    else newStarts1
  let newStarts3 := if newStarts2 < baseDate then baseDate else newStarts2
  { schedule := schedule
    changes := getScheduleChanges schedule [ScheduleField.startF]
      (fun f => match f with
        | ScheduleField.startF => some newStarts3
        | ScheduleField.endF => none)
    start := newStarts3
    ends := schedule.ends }

/-- `TimeResize.prototype._updateScheduleTop` with the schedule lookup. -/
def updateScheduleTop (items : String → Option Schedule) (targetModelID : String)
    (nearestRange : Int × Int) (baseDate : Int) : Option BeforeUpdateEvent :=
  match items targetModelID with
  | none => none
  | some schedule => some (updateScheduleTopCore schedule nearestRange baseDate)

/-- `TimeResize.prototype._onDragEnd` builds `scheduleData.nearestRange` as
`[dragStart.nearestGridTimeY, scheduleData.nearestGridTimeY.addMinutes(30)]`. -/
def onDragEndNearestRange (dragStartNearestGridTimeY dragEndNearestGridTimeY : Int) :
    Int × Int :=
  (dragStartNearestGridTimeY, addMinutes dragEndNearestGridTimeY 30)

/-- The drag-end pipeline of the bottom-edge variant: build the nearest-grid
range as `_onDragEnd` does, then run `_updateSchedule`. -/
def onDragEndResolve (items : String → Option Schedule) (targetModelID : String)
    (dragStartNearestGridTimeY dragEndNearestGridTimeY : Int) (baseDate : Int) :
    Option BeforeUpdateEvent :=
  updateSchedule items targetModelID
    (onDragEndNearestRange dragStartNearestGridTimeY dragEndNearestGridTimeY) baseDate

/-- `WeekResize.prototype._updateSchedule`: only the end date is adjustable;
the cached candidate end is clamped to the end of its day and only the `end`
field is offered to `getScheduleChanges`. -/
def weekUpdateSchedule (schedule : Schedule) (cacheEnd : Int) : BeforeUpdateEvent :=
  let newEnd := datetimeEnd cacheEnd
  { schedule := schedule
    changes := getScheduleChanges schedule [ScheduleField.endF]
      (fun f => match f with
        | ScheduleField.endF => some newEnd
        | ScheduleField.startF => none)
    start := schedule.starts
    ends := newEnd }

/-- `WeekResize.prototype._onDragEnd` after handler unsubscription:
`scheduleDataDate` is `scheduleData.date` when the pointer position resolves
to a grid cell (`none` when `getScheduleData` yields nothing).  The update is
fired only when `schedule.getStarts() <= cache.end`. -/
def weekOnDragEnd (schedule : Schedule) (scheduleDataDate : Option Int) :
    Option BeforeUpdateEvent :=
  match scheduleDataDate with
  | none => none
  | some d =>
    if schedule.starts ≤ d then some (weekUpdateSchedule schedule d)
    else none

/-- The custom events fired by the `TimeResize` handler. -/
inductive EventName where
  | timeResizeDragstart
  | timeResizeDrag
  | timeResizeDragend
  | timeResizeClick
  | beforeUpdateSchedule
  deriving DecidableEq, Repr

/-- Observable state of a `TimeResize` handler instance: which of the two
move/up/click handler sets is subscribed on the drag handler, the events
fired so far, and the controller's schedule collection. -/
structure TimeResizeState where
  subscribedTop : Bool
  subscribedBottom : Bool
  emitted : List EventName
  schedules : String → Option Schedule

/-- `TimeResize.prototype._onClick`: unsubscribe both the bottom-edge and the
top-edge handler sets, then fire `timeResizeClick`.  The schedule collection
is untouched. -/
def onClick (s : TimeResizeState) : TimeResizeState :=
  { s with
    subscribedBottom := false
    subscribedTop := false
    emitted := s.emitted ++ [EventName.timeResizeClick] }

/-- `TimeResize.prototype._onDragStart` edge classification: the pointer's
`clientY` is compared against the vertical midpoint of the schedule block's
bounding box, `top + ((top + height) − top) / 2`, with `<=`. -/
def isDraggingTop (blockTop blockHeight mouseStartY : ℚ) : Bool :=
  let blockElementTopY := blockTop
  let blockElementBottomY := blockTop + blockHeight
  let blockElementDraggingTopThreshold :=
    blockElementTopY + (blockElementBottomY - blockElementTopY) / 2
  decide (mouseStartY ≤ blockElementDraggingTopThreshold)

/-- `TimeResize.prototype._onDragStart` subscription effect: the top-edge
handler set is subscribed when `isDraggingTop`, the bottom-edge set
otherwise, and `timeResizeDragstart` is fired. -/
def onDragStartSubscribe (s : TimeResizeState) (blockTop blockHeight mouseStartY : ℚ) :
    TimeResizeState :=
  if isDraggingTop blockTop blockHeight mouseStartY then
    { s with
      subscribedTop := true
      emitted := s.emitted ++ [EventName.timeResizeDragstart] }
  else
    { s with
      subscribedBottom := true
      emitted := s.emitted ++ [EventName.timeResizeDragstart] }

/-- `TimeResize.prototype._updateSchedule` as a state transition: the handler
only fires `beforeUpdateSchedule` (when the lookup succeeds); it never writes
into the schedule collection. -/
def updateScheduleStep (s : TimeResizeState) (targetModelID : String)
    (nearestRange : Int × Int) (baseDate : Int) : TimeResizeState :=
  match updateSchedule s.schedules targetModelID nearestRange baseDate with
  | none => s
  | some ev =>
    let _ := ev
    { s with emitted := s.emitted ++ [EventName.beforeUpdateSchedule] }

/-- A schedule collection with a single entry, for concrete scenarios. -/
def singletonItems (id : String) (schedule : Schedule) : String → Option Schedule :=
  fun key => if key = id then some schedule else none

/-- Whether a (possibly absent) fired event's changes object leaves the start
field alone. -/
def changesStartAbsent : Option BeforeUpdateEvent → Prop
  | none => True
  | some ev => ev.changes.startChange = none

/-- Whether a (possibly absent) fired event's changes object leaves the end
field alone. -/
def changesEndAbsent : Option BeforeUpdateEvent → Prop
  | none => True
  | some ev => ev.changes.endChange = none

/-- The end value carried by a fired event, when one is fired. -/
def emittedEnd (o : Option BeforeUpdateEvent) : Option Int :=
  o.map (fun ev => ev.ends)

/-- The start value carried by a fired event, when one is fired. -/
def emittedStart (o : Option BeforeUpdateEvent) : Option Int :=
  o.map (fun ev => ev.start)

/-- The end entry of the changes object of a fired event, when one is fired. -/
def emittedEndChange (o : Option BeforeUpdateEvent) : Option (Option Int) :=
  o.map (fun ev => ev.changes.endChange)

/-- The 30-minute minimum-duration invariant between the start and end values
carried by a fired event; vacuously true when nothing is fired. -/
def minDurationHolds (o : Option BeforeUpdateEvent) : Bool :=
  match o with
  | none => true
  | some ev => decide (millisecondsFromMinutes 30 ≤ ev.ends - ev.start)

/-- Whether the start value carried by a fired event is at or after the start
of the base day; vacuously true when nothing is fired. -/
def startWithinDay (baseDate : Int) (o : Option BeforeUpdateEvent) : Bool :=
  match o with
  | none => true
  | some ev => decide (baseDate ≤ ev.start)

/-- Whether the end value carried by a fired event is at or before 23:59 of
the base day; vacuously true when nothing is fired. -/
def endWithinDayEnd (baseDate : Int) (o : Option BeforeUpdateEvent) : Bool :=
  match o with
  | none => true
  | some ev => decide (ev.ends ≤ datetimeEndOfBase baseDate)

/-- A `TimeResize` handler state with an empty schedule collection. -/
def emptyState : TimeResizeState :=
  { subscribedTop := false
    subscribedBottom := false
    emitted := []
    schedules := fun _ => none }

/-- C1 counterexample: a schedule ending at 00:10 of the base day
(start 23:00 of the previous day), top-edge drag with zero nearest-grid
offset.  The emitted start is clamped to the day start (00:00), so
`schedule.end - newStart` is 10 minutes, below the 30-minute floor: the
claim fails exactly when the day-start clamp fires on a schedule ending
before 00:30. -/
theorem updateScheduleTop_min_duration_violated :
    minDurationHolds
        (updateScheduleTop (singletonItems "a" ⟨-3600000, 600000⟩) "a"
          (0, 1800000) 0) = false ∧
      emittedStart
        (updateScheduleTop (singletonItems "a" ⟨-3600000, 600000⟩) "a"
          (0, 1800000) 0) = some 0 := by
  constructor <;> rfl

/-- C1 (amended): for a top-edge drag-end that resolves a schedule whose end
is at least 30 minutes after the base day's start, the emitted start value
satisfies `schedule.end - newStart ≥ 30` minutes after all clamping. -/
theorem updateScheduleTopCore_min_duration (schedule : Schedule)
    (nearestRange : Int × Int) (baseDate : Int)
    (h : baseDate + millisecondsFromMinutes 30 ≤ schedule.ends) :
    millisecondsFromMinutes 30 ≤
      (updateScheduleTopCore schedule nearestRange baseDate).ends -
        (updateScheduleTopCore schedule nearestRange baseDate).start := by
  unfold updateScheduleTopCore
  dsimp only
  simp only [millisecondsFromMinutes, addMilliseconds, addMinutes] at h ⊢
  split_ifs <;> omega

/-- Witness for C1: a schedule 09:00–10:00 on the base day satisfies the
hypothesis, and the minimum duration holds for a concrete drag. -/
theorem updateScheduleTopCore_min_duration_concrete :
    millisecondsFromMinutes 30 ≤
      (updateScheduleTopCore ⟨32400000, 36000000⟩ (0, 1800000) 0).ends -
        (updateScheduleTopCore ⟨32400000, 36000000⟩ (0, 1800000) 0).start :=
  updateScheduleTopCore_min_duration ⟨32400000, 36000000⟩ (0, 1800000) 0
    (by decide)

/-- C2 counterexample: a schedule 23:45–23:50, bottom-edge drag with zero
nearest-grid offset.  The minimum-duration clamp raises the end to 00:15 of
the next day, then the final clamp lowers it to 23:59, leaving a duration of
14 minutes: the claim fails when the `day + 1 − 1 minute` clamp fires. -/
theorem updateSchedule_min_duration_violated :
    minDurationHolds
        (updateSchedule (singletonItems "a" ⟨85500000, 85800000⟩) "a"
          (0, 1800000) 0) = false ∧
      emittedEnd
        (updateSchedule (singletonItems "a" ⟨85500000, 85800000⟩) "a"
          (0, 1800000) 0) = some 86340000 := by
  constructor <;> rfl

/-- C2 (amended): for a bottom-edge drag-end that resolves a schedule whose
start is at least 30 minutes before the end of the base day (start at or
before 23:30), the emitted end value satisfies
`newEnd - schedule.start ≥ 30` minutes after all clamping. -/
theorem updateScheduleCore_min_duration (schedule : Schedule)
    (nearestRange : Int × Int) (baseDate : Int)
    (h : schedule.starts + millisecondsFromMinutes 30 ≤ addDate baseDate 1) :
    millisecondsFromMinutes 30 ≤
      (updateScheduleCore schedule nearestRange baseDate).ends -
        (updateScheduleCore schedule nearestRange baseDate).start := by
  unfold updateScheduleCore
  dsimp only
  simp only [millisecondsFromMinutes, addMilliseconds, addMinutes, addDate,
    msPerDay, datetimeEndOfBase] at h ⊢
  split_ifs <;> omega

/-- Witness for C2: a schedule 09:00–10:00 on the base day satisfies the
hypothesis, and the minimum duration holds for a concrete drag. -/
theorem updateScheduleCore_min_duration_concrete :
    millisecondsFromMinutes 30 ≤
      (updateScheduleCore ⟨32400000, 36000000⟩ (0, 1800000) 0).ends -
        (updateScheduleCore ⟨32400000, 36000000⟩ (0, 1800000) 0).start :=
  updateScheduleCore_min_duration ⟨32400000, 36000000⟩ (0, 1800000) 0
    (by decide)

/-- C3 counterexample: a schedule 23:30–23:45, bottom-edge drag with zero
nearest-grid offset.  The minimum-duration clamp raises the end to exactly
midnight of the next day; the final clamp only fires on values strictly
greater than `base + 1 day`, so the emitted end is `base + 1 day`, which
exceeds the 23:59 end boundary of the containing day. -/
theorem updateSchedule_day_end_exceeded :
    endWithinDayEnd 0
        (updateSchedule (singletonItems "a" ⟨84600000, 84900000⟩) "a"
          (0, 1800000) 0) = false ∧
      emittedEnd
        (updateSchedule (singletonItems "a" ⟨84600000, 84900000⟩) "a"
          (0, 1800000) 0) = some 86400000 := by
  constructor <;> rfl

/-- C3 (amended): the end value emitted by a bottom-edge drag-end never
exceeds `baseDate + 1 day` (midnight of the next day), for every schedule and
every drag. -/
theorem updateScheduleCore_end_bounded (schedule : Schedule)
    (nearestRange : Int × Int) (baseDate : Int) :
    (updateScheduleCore schedule nearestRange baseDate).ends ≤
      addDate baseDate 1 := by
  unfold updateScheduleCore
  dsimp only
  simp only [millisecondsFromMinutes, addMilliseconds, addMinutes, addDate,
    msPerDay, datetimeEndOfBase]
  split_ifs <;> omega

/-- C4: for every top-edge drag-end, when a schedule is resolved the emitted
start value is at or after the start of the base day, for any pointer
position. -/
theorem updateScheduleTop_start_not_before_base (items : String → Option Schedule)
    (targetModelID : String) (nearestRange : Int × Int) (baseDate : Int) :
    startWithinDay baseDate
      (updateScheduleTop items targetModelID nearestRange baseDate) = true := by
  unfold updateScheduleTop
  cases items targetModelID with
  | none => rfl
  | some schedule =>
    simp only [startWithinDay, decide_eq_true_eq]
    unfold updateScheduleTopCore
    dsimp only
    split_ifs <;> omega

/-- C5 counterexample: schedule 09:00–10:00, bottom-edge drag whose
nearest-grid times differ by 5 minutes (range spanning 35 minutes, so
`timeDiff = 5` minutes).  The emitted end is 10:05, not the claimed 10:30:
the 30-minute floor constrains the resulting duration (here 65 minutes),
not the drag distance. -/
theorem dragEnd_five_minute_scenario_not_clamped :
    emittedEnd
        (onDragEndResolve (singletonItems "a" ⟨32400000, 36000000⟩) "a"
          36000000 36300000 0) ≠ some 37800000 := by
  intro h
  simp only [onDragEndResolve, onDragEndNearestRange, updateSchedule,
    singletonItems] at h
  revert h
  decide

/-- C5 (amended): the same 5-minute bottom-edge drag produces a change
request with end 10:05, carried both as the event's end value and as the only
entry of its changes object. -/
theorem dragEnd_five_minute_scenario_result :
    emittedEnd
        (onDragEndResolve (singletonItems "a" ⟨32400000, 36000000⟩) "a"
          36000000 36300000 0) = some 36300000 ∧
      emittedEndChange
        (onDragEndResolve (singletonItems "a" ⟨32400000, 36000000⟩) "a"
          36000000 36300000 0) = some (some 36300000) := by
  constructor <;> rfl

/-- C6: schedule 09:00–10:00, bottom-edge drag whose nearest-grid range spans
75 minutes (`timeDiff = 45` minutes): the change request carries end 10:45. -/
theorem dragEnd_fortyfive_minute_scenario :
    emittedEnd
        (onDragEndResolve (singletonItems "a" ⟨32400000, 36000000⟩) "a"
          36000000 38700000 0) = some 38700000 ∧
      emittedEndChange
        (onDragEndResolve (singletonItems "a" ⟨32400000, 36000000⟩) "a"
          36000000 38700000 0) = some (some 38700000) := by
  constructor <;> rfl

/-- C7: the month variant fires a change request on drag-end exactly when the
candidate end date is not earlier than the schedule's start; when fired, the
end is the candidate clamped to the end of its day, the changes object never
touches the start, and the event's start is the schedule's unchanged start;
an unresolved position fires nothing. -/
theorem weekOnDragEnd_spec (schedule : Schedule) (d : Int) :
    ((weekOnDragEnd schedule (some d)).isSome ↔ schedule.starts ≤ d) ∧
      changesStartAbsent (weekOnDragEnd schedule (some d)) ∧
      emittedEnd (weekOnDragEnd schedule (some d)) =
        (if schedule.starts ≤ d then some (datetimeEnd d) else none) ∧
      emittedStart (weekOnDragEnd schedule (some d)) =
        (if schedule.starts ≤ d then some schedule.starts else none) ∧
      weekOnDragEnd schedule none = none := by
  by_cases h : schedule.starts ≤ d <;>
    simp [weekOnDragEnd, weekUpdateSchedule, getScheduleChanges,
      changesStartAbsent, emittedEnd, emittedStart, h]

/-- C8: a click (release without movement) after a confirmed drag-start
unsubscribes both handler sets, leaves the schedule collection untouched,
and fires exactly the cancellation event `timeResizeClick` — in particular
no `beforeUpdateSchedule`. -/
theorem onClick_cancels (s : TimeResizeState) :
    (onClick s).schedules = s.schedules ∧
      (onClick s).subscribedTop = false ∧
      (onClick s).subscribedBottom = false ∧
      (onClick s).emitted = s.emitted ++ [EventName.timeResizeClick] ∧
      EventName.beforeUpdateSchedule ∉ [EventName.timeResizeClick] := by
  refine ⟨rfl, rfl, rfl, rfl, ?_⟩
  decide

/-- C9: the resize handlers never write into the schedule collection: the
drag-end transition leaves `schedules` unchanged; the changes object of a
bottom-edge or month drag never contains a start, that of a top-edge drag
never contains an end; and when no schedule matches the target model id,
nothing is fired and the state is unchanged. -/
theorem resizeHandlers_frame_effect (s : TimeResizeState) (targetModelID : String)
    (nearestRange : Int × Int) (baseDate : Int) (schedule : Schedule) (d : Int) :
    (updateScheduleStep s targetModelID nearestRange baseDate).schedules =
        s.schedules ∧
      changesStartAbsent
        (updateSchedule s.schedules targetModelID nearestRange baseDate) ∧
      changesEndAbsent
        (updateScheduleTop s.schedules targetModelID nearestRange baseDate) ∧
      changesStartAbsent (weekOnDragEnd schedule (some d)) ∧
      (s.schedules targetModelID = none →
        updateSchedule s.schedules targetModelID nearestRange baseDate = none ∧
          updateScheduleStep s targetModelID nearestRange baseDate = s) := by
  refine ⟨?_, ?_, ?_, ?_, ?_⟩
  · unfold updateScheduleStep
    cases updateSchedule s.schedules targetModelID nearestRange baseDate <;> rfl
  · unfold updateSchedule
    cases s.schedules targetModelID with
    | none => trivial
    | some sched =>
      simp [changesStartAbsent, updateScheduleCore, getScheduleChanges]
  · unfold updateScheduleTop
    cases s.schedules targetModelID with
    | none => trivial
    | some sched =>
      simp [changesEndAbsent, updateScheduleTopCore, getScheduleChanges]
  · by_cases h : schedule.starts ≤ d <;>
      simp [weekOnDragEnd, weekUpdateSchedule, getScheduleChanges,
        changesStartAbsent, h]
  · intro h
    unfold updateScheduleStep updateSchedule
    rw [h]
    exact ⟨rfl, rfl⟩

/-- Witness for C9: with an empty schedule collection the lookup fails, no
event is fired and the state is returned unchanged. -/
theorem resizeHandlers_frame_effect_no_match :
    (updateScheduleStep emptyState "a" (0, 1800000) 0).schedules =
        emptyState.schedules ∧
      updateSchedule emptyState.schedules "a" (0, 1800000) 0 = none ∧
      updateScheduleStep emptyState "a" (0, 1800000) 0 = emptyState := by
  have h := resizeHandlers_frame_effect emptyState "a" (0, 1800000) 0 ⟨0, 0⟩ 0
  exact ⟨h.1, (h.2.2.2.2 rfl).1, (h.2.2.2.2 rfl).2⟩

/-- C10: a pointer-down whose `clientY` equals the vertical midpoint of the
schedule block's bounding box is classified as a top-edge drag (the
comparison is `mouseStartY <= threshold`), and the top-edge handler set is
the one subscribed in that tie case. -/
theorem midpoint_tie_is_top_drag (s : TimeResizeState) (blockTop blockHeight : ℚ) :
    isDraggingTop blockTop blockHeight
        (blockTop + ((blockTop + blockHeight) - blockTop) / 2) = true ∧
      (onDragStartSubscribe s blockTop blockHeight
          (blockTop + ((blockTop + blockHeight) - blockTop) / 2)).subscribedTop =
        true := by
  have hT : isDraggingTop blockTop blockHeight
      (blockTop + ((blockTop + blockHeight) - blockTop) / 2) = true := by
    unfold isDraggingTop
    simp
  refine ⟨hT, ?_⟩
  unfold onDragStartSubscribe
  rw [hT]
  rfl

end TuiCalendar
